import Mathlib

/-!
Shallow embedding of the signai backend (daniellegraf/signai).

The repository holds five iterations of the same Express pipeline:
  * `src/server.js` first variant  (lines 101-251)  — "V1": getImageSize gate, pickNumber normalizer;
  * `src/server.js` second variant (lines 384-541)  — "V2": detectImageType sniffer, full gate,
    the `&&`/`??` aiScore chain;
  * `src/unnamed/part_000` first variant (lines 55-99)  — "Rest": REST transport, no validation,
    explicit 400/502/500 statuses;
  * `src/unnamed/part_000` second variant (lines 256-411) — "MCP": sniffType sniffer, selfFetchCheck,
    guarded normalizer;
  * `src/unnamed/part_001` — "P1": earliest variant, 400/500 statuses.

JavaScript numbers are modelled as exact rationals plus the non-finite values; JSON documents as an
untyped tree `JVal`; a thrown JS exception as the `JsRes.thrown` constructor.
-/

/-- A JavaScript number: a finite value (modelled exactly as a rational) or NaN / ±Infinity. -/
inductive JsNum where
  | fin (q : ℚ)
  | nan
  | inf
  | ninf
deriving DecidableEq, Repr

/-- An untyped JavaScript/JSON value as probed by the normalizer. -/
inductive JVal where
  | num (n : JsNum)
  | str (s : String)
  | bool (b : Bool)
  | null
  | undefined
  | arr (xs : List JVal)
  | obj (fs : List (String × JVal))

/-- JS truthiness: false, 0, NaN, "", null and undefined are falsy; everything else truthy. -/
def truthy : JVal → Bool
  | .num (.fin q) => decide (q ≠ 0)
  | .num .nan => false
  | .num .inf => true
  | .num .ninf => true
  | .str s => decide (s ≠ "")
  | .bool b => b
  | .null => false
  | .undefined => false
  | .arr _ => true
  | .obj _ => true

/-- JS `x || y`. -/
def jsOr (x y : JVal) : JVal := if truthy x then x else y

/-- JS `x ?? y` (nullish coalescing). -/
def jsNullish (x y : JVal) : JVal :=
  match x with
  | .null => y
  | .undefined => y
  | v => v

/-- Association-list field lookup used by property access. -/
def getField : List (String × JVal) → String → Option JVal
  | [], _ => none
  | (k, v) :: rest, key => if k = key then some v else getField rest key

/-- JS property access `v?.k` (and `v.k` for a base already known non-nullish):
an object yields the field or `undefined`; a primitive or array yields `undefined`
(the code never reads a property that exists on those); null/undefined bases are
short-circuited to `undefined` by the optional chain. -/
def optGet (v : JVal) (k : String) : JVal :=
  match v with
  | .obj fs => (getField fs k).getD .undefined
  | _ => .undefined

/-- Field lookup that distinguishes an absent field (for response-shape statements). -/
def lookupField (v : JVal) (k : String) : Option JVal :=
  match v with
  | .obj fs => getField fs k
  | _ => none

/-- JS `typeof v === "number" && v`: the number itself, or boolean `false`. -/
def numAnd (v : JVal) : JVal :=
  match v with
  | .num n => .num n
  | _ => .bool false

/-- JS `typeof v === "number"` as a boolean test. -/
def isNumV : JVal → Bool
  | .num _ => true
  | _ => false

/-- The number carried by a value known to be a JS number. -/
def asNum : JVal → Option JsNum
  | .num n => some n
  | _ => none

/-- JS `v > 1` on the values the aiScore chain can produce. -/
def jsGt1 : JVal → Bool
  | .num (.fin q) => decide (1 < q)
  | .num .inf => true
  | _ => false

/-- JS `v / 100` on number values. -/
def jsDiv100 : JVal → JVal
  | .num (.fin q) => .num (.fin (q / 100))
  | .num .inf => .num .inf
  | .num .ninf => .num .ninf
  | .num .nan => .num .nan
  | v => v

/-- JS `v >= 0.5` on number values (NaN compares false). -/
def jsGeHalf : JVal → Bool
  | .num (.fin q) => decide ((1 : ℚ) / 2 ≤ q)
  | .num .inf => true
  | _ => false

/-- The neutral sentinel score 0.5 used by every error envelope. -/
def halfScore : JVal := .num (.fin (1 / 2))

/-- Whether the first list is a prefix of the second. -/
def charPre : List Char → List Char → Bool
  | [], _ => true
  | _ :: _, [] => false
  | a :: as, b :: bs => a == b && charPre as bs

/-- Whether the first list occurs inside the second. -/
def charInfix (pat : List Char) : List Char → Bool
  | [] => charPre pat []
  | c :: rest => charPre pat (c :: rest) || charInfix pat rest

/-- JS `s.indexOf(pat) !== -1`. -/
def containsSub (s pat : String) : Bool := charInfix pat.toList s.toList

/-- ASCII lower-casing of one character (the probed error texts are ASCII). -/
def asciiLower (c : Char) : Char :=
  if 'A' ≤ c ∧ c ≤ 'Z' then Char.ofNat (c.toNat + 32) else c

/-- JS `s.toLowerCase()` restricted to ASCII. -/
def asciiLowerStr (s : String) : String := String.mk (s.toList.map asciiLower)

/-- The characters after the last dot of a name, when one exists. -/
def afterLastDot : List Char → Option (List Char)
  | [] => none
  | c :: rest =>
    match afterLastDot rest with
    | some e => some e
    | none => if c = '.' then some rest else none

/-- Model of Node `path.extname` for plain basenames (the uploaded names contain no slash):
the suffix starting at the last dot, `""` when there is no dot or the only dot is leading. -/
def extname (s : String) : String :=
  match s.toList with
  | [] => ""
  | _ :: rest =>
    match afterLastDot rest with
    | some e => "." ++ String.mk e
    | none => ""

/-- Outcome of a JS computation that can throw. -/
inductive JsRes (α : Type) where
  | thrown
  | value (v : α)
deriving DecidableEq, Repr

/-- Sniffed raster format (the source uses the strings "png" / "jpeg" / "webp"). -/
inductive Fmt where
  | png
  | jpeg
  | webp
deriving DecidableEq, Repr

/-- The `{width, height, type}` record returned by `getImageSize`. -/
structure ImageDim where
  width : Nat
  height : Nat
  type : Fmt
deriving DecidableEq, Repr

/-- Node `buffer.readUInt16BE(off)`: big-endian 16-bit read, throwing (`none`) out of range. -/
def readUInt16BE (b : List Nat) (off : Nat) : Option Nat :=
  if off + 2 ≤ b.length then some (b.getD off 0 * 256 + b.getD (off + 1) 0) else none

/-- Node `buffer.readUInt32BE(off)`: big-endian 32-bit read, throwing (`none`) out of range. -/
def readUInt32BE (b : List Nat) (off : Nat) : Option Nat :=
  if off + 4 ≤ b.length then
    some (((b.getD off 0 * 256 + b.getD (off + 1) 0) * 256 + b.getD (off + 2) 0) * 256
      + b.getD (off + 3) 0)
  else none

/-- PNG signature bytes `89 50 4E 47` at offset 0. -/
abbrev pngSig (b : List Nat) : Prop :=
  b.getD 0 0 = 0x89 ∧ b.getD 1 0 = 0x50 ∧ b.getD 2 0 = 0x4e ∧ b.getD 3 0 = 0x47

/-- JPEG signature bytes `FF D8` at offset 0. -/
abbrev jpegSig (b : List Nat) : Prop :=
  b.getD 0 0 = 0xff ∧ b.getD 1 0 = 0xd8

/-- WEBP signature: ASCII "RIFF" at offset 0 and "WEBP" at offset 8. -/
abbrev webpSig (b : List Nat) : Prop :=
  b.getD 0 0 = 0x52 ∧ b.getD 1 0 = 0x49 ∧ b.getD 2 0 = 0x46 ∧ b.getD 3 0 = 0x46 ∧
  b.getD 8 0 = 0x57 ∧ b.getD 9 0 = 0x45 ∧ b.getD 10 0 = 0x42 ∧ b.getD 11 0 = 0x50

/-- Function `detectImageType` from server.js second variant (lines 309-342): `null` (here `none`)
for buffers shorter than 16 bytes or matching no signature. -/
def detectImageType (b : List Nat) : Option Fmt :=
  if b.length < 16 then none
  else if pngSig b then some .png
  else if jpegSig b then some .jpeg
  else if webpSig b then some .webp
  else none

/-- Function `sniffType` from part_000 second variant (lines 156-191); the unknown result
of the source is modelled as `none`. -/
def sniffType (b : List Nat) : Option Fmt :=
  if b.length < 12 then none
  else if 8 < b.length ∧ pngSig b then some .png
  else if 3 < b.length ∧ jpegSig b then some .jpeg
  else if 12 < b.length ∧ webpSig b then some .webp
  else none

/-- The JPEG marker-scan loop of `getImageSize`. The loop index `i` strictly increases each
iteration and the loop runs only while `i < b.length`, so `b.length` units of gas always
suffice; the gas-exhausted branch is unreachable and mirrors normal loop exit. -/
def jpegScan (b : List Nat) : Nat → Nat → JsRes (Option ImageDim)
  | 0, _ => .value none
  | gas + 1, i =>
    if i < b.length then
      if b.getD i 0 ≠ 0xff then jpegScan b gas (i + 1)
      else
        let marker := b.get? (i + 1)
        match readUInt16BE b (i + 2) with
        | none => .thrown
        | some size =>
          if marker = some 0xc0 ∨ marker = some 0xc2 then
            match readUInt16BE b (i + 5), readUInt16BE b (i + 7) with
            | some hgt, some wid => .value (some ⟨wid, hgt, .jpeg⟩)
            | _, _ => .thrown
          else jpegScan b gas (i + 2 + size)
    else .value none

/-- Function `getImageSize` from server.js first variant (lines 59-90) and part_000 (lines 193-221):
two-byte PNG check, then the JPEG SOF scan. `JsRes.thrown` marks the RangeError a
`readUInt16BE`/`readUInt32BE` out-of-range read raises. -/
def getImageSize (b : List Nat) : JsRes (Option ImageDim) :=
  if 24 < b.length ∧ b.getD 0 0 = 0x89 ∧ b.getD 1 0 = 0x50 then
    match readUInt32BE b 16, readUInt32BE b 20 with
    | some w, some h => .value (some ⟨w, h, .png⟩)
    | _, _ => .thrown
  else if 4 < b.length ∧ b.getD 0 0 = 0xff ∧ b.getD 1 0 = 0xd8 then
    jpegScan b b.length 2
  else .value none

/-- Function `getImageSize` from server.js second variant (lines 345-381): same as `getImageSize`
but with the four-byte PNG signature check. -/
def getImageSizeV2 (b : List Nat) : JsRes (Option ImageDim) :=
  if 24 < b.length ∧ pngSig b then
    match readUInt32BE b 16, readUInt32BE b 20 with
    | some w, some h => .value (some ⟨w, h, .png⟩)
    | _, _ => .thrown
  else if 4 < b.length ∧ b.getD 0 0 = 0xff ∧ b.getD 1 0 = 0xd8 then
    jpegScan b b.length 2
  else .value none

/-- Function `pickNumber` from server.js first variant (lines 93-98): the first argument that is a
finite JS number; `null` (`none`) otherwise. -/
def pickNumber : List JVal → Option ℚ
  | [] => none
  | v :: rest =>
    match v with
    | .num (.fin q) => some q
    | _ => pickNumber rest

/-- aiScore computation of server.js first variant (lines 206-217): `pickNumber` over the
four aliases, `> 1` scaled by 100, `null` falling back to 0.5. Always a finite rational. -/
def aiScoreV1 (payload : JVal) : ℚ :=
  match pickNumber [optGet payload "ai_score", optGet payload "ai_probability",
      optGet payload "score", optGet payload "probability"] with
  | some q => if 1 < q then q / 100 else q
  | none => 1 / 2

/-- aiScore computation of server.js second variant (lines 507-519):
`(typeof p.ai_score === "number" && p.ai_score) ?? (… ai_probability …) ?? (… score …) ?? null`,
then `> 1` scaled by 100, then `=== null` replaced by 0.5. -/
def aiScoreV2 (payload : JVal) : JVal :=
  let a0 := jsNullish (numAnd (optGet payload "ai_score"))
    (jsNullish (numAnd (optGet payload "ai_probability"))
      (jsNullish (numAnd (optGet payload "score")) .null))
  let a1 := match a0 with
    | .null => JVal.null
    | v => if jsGt1 v then jsDiv100 v else v
  match a1 with
  | .null => halfScore
  | v => v

/-- aiScore computation of part_000 second variant (lines 379-390): guarded if/else-if
chain over the three aliases, `> 1` scaled by 100, `null` falling back to 0.5. -/
def aiScoreMCP (payload : JVal) : JVal :=
  let a0 : Option JsNum :=
    if truthy payload then
      if isNumV (optGet payload "ai_score") then asNum (optGet payload "ai_score")
      else if isNumV (optGet payload "ai_probability") then
        asNum (optGet payload "ai_probability")
      else if isNumV (optGet payload "score") then asNum (optGet payload "score")
      else none
    else none
  match a0 with
  | none => halfScore
  | some n => if jsGt1 (.num n) then jsDiv100 (.num n) else .num n

/-- Label derivation shared by server.js first (lines 219-224) and second (lines 515-520)
variants: explicit `label`, then boolean `is_ai` / `is_human`, then "Unknown". -/
def labelChain (payload : JVal) : JVal :=
  let l0 := optGet payload "label"
  let l1 :=
    if truthy l0 then l0
    else match optGet payload "is_ai" with
      | .bool b => JVal.str (if b then "AI" else "Human")
      | _ => l0
  let l2 :=
    if truthy l1 then l1
    else match optGet payload "is_human" with
      | .bool b => JVal.str (if b then "Human" else "AI")
      | _ => l1
  if truthy l2 then l2 else .str "Unknown"

/-- Label derivation of part_000 second variant (lines 386-391): `payload && payload.label`
needs a truthy label, then the boolean probes, then "Unknown". -/
def labelMCP (payload : JVal) : JVal :=
  let l0 := if truthy payload && truthy (optGet payload "label") then optGet payload "label"
    else JVal.null
  let l1 :=
    if truthy l0 then l0
    else if truthy payload then
      match optGet payload "is_ai" with
      | .bool b => JVal.str (if b then "AI" else "Human")
      | _ => l0
    else l0
  let l2 :=
    if truthy l1 then l1
    else if truthy payload then
      match optGet payload "is_human" with
      | .bool b => JVal.str (if b then "Human" else "AI")
      | _ => l1
    else l1
  if truthy l2 then l2 else .str "Unknown"

/-- Predicate of the `find` callback in server.js second variant line 489:
`(x) => x?.type === "text"`. -/
def textPred (x : JVal) : Bool :=
  match optGet x "type" with
  | .str s => s = "text"
  | _ => false

/-- Expression `data?.result?.content?.find((x) => x?.type === "text")?.text || null` (server.js
second variant lines 488-489). A non-nullish, non-array `content` makes `content.find`
undefined and the call throws. -/
def maybeTextErrorV2 (data : JVal) : JsRes JVal :=
  match optGet (optGet data "result") "content" with
  | .null => .value .null
  | .undefined => .value .null
  | .arr xs => .value (jsOr (optGet ((xs.find? textPred).getD .undefined) "text") .null)
  | _ => .thrown

/-- The `winstonTextError` extraction of part_000 second variant (lines 346-355): the first
element of `data.result.content`, when it is a text segment whose lower-cased text
contains "there was an error". -/
def winstonTextErrorMCP (data : JVal) : Option String :=
  let maybe :=
    if truthy data && truthy (optGet data "result") &&
        truthy (optGet (optGet data "result") "content") then
      optGet (optGet data "result") "content"
    else JVal.null
  match maybe with
  | .arr (x :: _) =>
    if truthy x then
      match optGet x "type", optGet x "text" with
      | .str ty, .str t =>
        if ty = "text" && containsSub (asciiLowerStr t) "there was an error" then some t
        else none
      | _, _ => none
    else none
  | _ => none

/-- The multipart upload: raw bytes plus the untrusted caller-declared filename. -/
structure FileUp where
  buffer : List Nat
  originalname : Option String

/-- Which return site of a handler produced the response (one tag per `return res…` site). -/
inductive ExitKind where
  | noFile
  | noKey
  | unknownType
  | webpReject
  | notPngJpeg
  | notAnImage
  | cannotRead
  | tooSmall
  | rpcError
  | winstonText
  | badStatus
  | transport
  | catchErr
  | success
deriving DecidableEq, Repr

/-- Observable outcome of one request: HTTP status, the response-body fields the claims
inspect, which return site fired, whether bytes were written to /tmp/uploads (and under
which name), and whether the external detection call was issued. -/
structure HRes where
  status : Nat
  ai_score : JVal
  label : JVal
  exit : ExitKind
  published : Option String
  detectCalled : Bool
  rawError : Option String
  rawSize : Option (Nat × Nat)

/-- Outcome of the axios call to Winston: a rejected promise or a response body. -/
inductive WOutcome where
  | throws
  | responds (data : JVal)

/-- Outcome of the fetch call in the REST variant: a rejected promise, or the ok flag,
status and parsed JSON body (`null` when unparseable). -/
inductive FOutcome where
  | throws
  | reply (ok : Bool) (status : Nat) (data : JVal)

/-- Payload derivation of server.js first variant (lines 198-203):
`result = data?.result ?? data; payload = result?.content ?? result?.output ?? result ?? data`. -/
def v1PayloadOf (data : JVal) : JVal :=
  let result := jsNullish (optGet data "result") data
  jsNullish (optGet result "content")
    (jsNullish (optGet result "output") (jsNullish result data))

/-- Payload derivation of part_000 second variant (lines 376-377):
`result = data && data.result ? data.result : data;
payload = result && (result.content || result.output) ? (result.content || result.output) : result`. -/
def mcpPayloadOf (data : JVal) : JVal :=
  let result := if truthy data && truthy (optGet data "result") then optGet data "result"
    else data
  if truthy result && truthy (jsOr (optGet result "content") (optGet result "output")) then
    jsOr (optGet result "content") (optGet result "output")
  else result

/-- Post-gate half of server.js first variant (lines 142-250): filename from the caller
extension (falling back to ".png"), publish, Winston MCP call, `data?.error` probe,
`pickNumber` normalization. -/
def v1Publish (nm : Option String) (dr : String) (w : WOutcome) : HRes :=
  let originalName := match nm with
    | some s => if s = "" then "image.png" else s
    | none => "image.png"
  let extn := if extname originalName = "" then ".png" else extname originalName
  let filename := dr ++ extn
  match w with
  | .throws =>
    { status := 200, ai_score := halfScore, label := .str "Error contacting Winston",
      exit := .transport, published := some filename, detectCalled := true,
      rawError := none, rawSize := none }
  | .responds data =>
    if truthy (optGet data "error") then
      { status := 200, ai_score := halfScore, label := .str "Error from Winston",
        exit := .rpcError, published := some filename, detectCalled := true,
        rawError := none, rawSize := none }
    else
      { status := 200, ai_score := .num (.fin (aiScoreV1 (v1PayloadOf data))),
        label := labelChain (v1PayloadOf data), exit := .success,
        published := some filename, detectCalled := true,
        rawError := none, rawSize := none }

/-- Route `POST /detect-image` of server.js first variant (lines 101-251).
Parameters: whether `WINSTON_API_KEY` is set, the multer file, the `Date.now() + "-" + random`
filename stem, and the Winston call outcome. Every `res.json` is status 200. -/
def detectImageV1 (hasKey : Bool) (file : Option FileUp) (dr : String) (w : WOutcome) : HRes :=
  match file with
  | none =>
    { status := 200, ai_score := halfScore, label := .str "Error: no image uploaded",
      exit := .noFile, published := none, detectCalled := false,
      rawError := some "No image uploaded", rawSize := none }
  | some f =>
    if hasKey then
      match getImageSize f.buffer with
      | .thrown =>
        { status := 200, ai_score := halfScore, label := .str "Error contacting Winston",
          exit := .catchErr, published := none, detectCalled := false,
          rawError := none, rawSize := none }
      | .value none =>
        { status := 200, ai_score := halfScore,
          label := .str "Error: uploaded file is not a PNG/JPEG image",
          exit := .notAnImage, published := none, detectCalled := false,
          rawError := some "NOT_AN_IMAGE", rawSize := none }
      | .value (some d) =>
        if d.width < 256 ∨ d.height < 256 then
          { status := 200, ai_score := halfScore,
            label := .str ("Error: image too small (" ++ toString d.width ++ "x"
              ++ toString d.height ++ "). Winston requires >=256x256."),
            exit := .tooSmall, published := none, detectCalled := false,
            rawError := some "IMAGE_TOO_SMALL", rawSize := some (d.width, d.height) }
        else v1Publish f.originalname dr w
    else
      { status := 200, ai_score := halfScore, label := .str "Error: WINSTON_API_KEY missing",
        exit := .noKey, published := none, detectCalled := false,
        rawError := some "WINSTON_API_KEY not set in environment", rawSize := none }

/-- Post-gate half of server.js second variant (lines 445-540): extension from the sniffed
type only (`realType === "png" ? ".png" : ".jpg"`), publish, Winston MCP call, text-error
probe, then the `&&`/`??` aiScore chain. -/
def v2Publish (rt : Fmt) (dr : String) (w : WOutcome) : HRes :=
  let extn := if rt = Fmt.png then ".png" else ".jpg"
  let filename := dr ++ extn
  match w with
  | .throws =>
    { status := 200, ai_score := halfScore, label := .str "Error contacting Winston",
      exit := .transport, published := some filename, detectCalled := true,
      rawError := none, rawSize := none }
  | .responds data =>
    match maybeTextErrorV2 data with
    | .thrown =>
      { status := 200, ai_score := halfScore, label := .str "Error contacting Winston",
        exit := .catchErr, published := some filename, detectCalled := true,
        rawError := none, rawSize := none }
    | .value t =>
      if truthy t then
        { status := 200, ai_score := halfScore, label := .str "Winston error",
          exit := .winstonText, published := some filename, detectCalled := true,
          rawError := none, rawSize := none }
      else
        match data with
        | .null =>
          { status := 200, ai_score := halfScore,
            label := .str "Error contacting Winston", exit := .catchErr,
            published := some filename, detectCalled := true,
            rawError := none, rawSize := none }
        | .undefined =>
          { status := 200, ai_score := halfScore,
            label := .str "Error contacting Winston", exit := .catchErr,
            published := some filename, detectCalled := true,
            rawError := none, rawSize := none }
        | dv =>
          let result := jsOr (optGet dv "result") dv
          let payload := jsOr (optGet result "content")
            (jsOr (optGet result "output") (jsOr result dv))
          { status := 200, ai_score := aiScoreV2 payload,
            label := labelChain payload, exit := .success,
            published := some filename, detectCalled := true,
            rawError := none, rawSize := none }

/-- Route `POST /detect-image` of server.js second variant (lines 384-541): magic-byte gate
(`detectImageType`), WEBP rejection, `getImageSizeV2`, minimum size, sniffed-type file
extension, Winston MCP call, text-error probe, then the `&&`/`??` aiScore chain. -/
def detectImageV2 (hasKey : Bool) (file : Option FileUp) (dr : String) (w : WOutcome) : HRes :=
  match file with
  | none =>
    { status := 200, ai_score := halfScore, label := .str "Error: no image uploaded",
      exit := .noFile, published := none, detectCalled := false,
      rawError := some "No image uploaded", rawSize := none }
  | some f =>
    if hasKey then
      match detectImageType f.buffer with
      | none =>
        { status := 200, ai_score := halfScore,
          label := .str "Error: unknown image type. Use PNG or JPEG.",
          exit := .unknownType, published := none, detectCalled := false,
          rawError := some "UNKNOWN_IMAGE_TYPE", rawSize := none }
      | some Fmt.webp =>
        { status := 200, ai_score := halfScore,
          label := .str "Error: WEBP not supported. Convert to PNG/JPEG before upload.",
          exit := .webpReject, published := none, detectCalled := false,
          rawError := some "WEBP_NOT_SUPPORTED", rawSize := none }
      | some rt =>
        match getImageSizeV2 f.buffer with
        | .thrown =>
          { status := 200, ai_score := halfScore, label := .str "Error contacting Winston",
            exit := .catchErr, published := none, detectCalled := false,
            rawError := none, rawSize := none }
        | .value none =>
          { status := 200, ai_score := halfScore,
            label := .str "Error: could not read image dimensions. Use PNG/JPEG.",
            exit := .cannotRead, published := none, detectCalled := false,
            rawError := some "CANNOT_READ_DIMENSIONS", rawSize := none }
        | .value (some d) =>
          if d.width < 256 ∨ d.height < 256 then
            { status := 200, ai_score := halfScore,
              label := .str ("Error: image too small (" ++ toString d.width ++ "x"
                ++ toString d.height ++ "). Winston requires >=256x256."),
              exit := .tooSmall, published := none, detectCalled := false,
              rawError := some "IMAGE_TOO_SMALL", rawSize := some (d.width, d.height) }
          else v2Publish rt dr w
    else
      { status := 200, ai_score := halfScore, label := .str "Error: WINSTON_API_KEY missing",
        exit := .noKey, published := none, detectCalled := false,
        rawError := some "WINSTON_API_KEY not set in environment", rawSize := none }

/-- Post-gate half of part_000 second variant (lines 302-400): filename from the caller
extension (falling back to the sniffed type), publish, selfFetchCheck (diagnostic only:
it catches internally and its report goes only into `raw`), Winston MCP call, error
probes, normalization. -/
def mcpPublish (f : FileUp) (realType : Option Fmt) (dr : String) (w : WOutcome) : HRes :=
  let originalName := match f.originalname with
    | some s => if s = "" then "image.jpg" else s
    | none => "image.jpg"
  let extn := if extname originalName = "" then
      (if realType = some Fmt.png then ".png" else ".jpg")
    else extname originalName
  let filename := dr ++ extn
  match w with
  | .throws =>
    { status := 200, ai_score := halfScore, label := .str "Error contacting Winston",
      exit := .transport, published := some filename, detectCalled := true,
      rawError := none, rawSize := none }
  | .responds data =>
    if truthy data && truthy (optGet data "error") then
      { status := 200, ai_score := halfScore, label := .str "Winston error",
        exit := .rpcError, published := some filename, detectCalled := true,
        rawError := none, rawSize := none }
    else
      match winstonTextErrorMCP data with
      | some _ =>
        { status := 200, ai_score := halfScore, label := .str "Winston error",
          exit := .winstonText, published := some filename, detectCalled := true,
          rawError := none, rawSize := none }
      | none =>
        { status := 200, ai_score := aiScoreMCP (mcpPayloadOf data),
          label := labelMCP (mcpPayloadOf data),
          exit := .success, published := some filename, detectCalled := true,
          rawError := none, rawSize := none }

/-- Route `POST /detect-image` of part_000 second variant (lines 256-411): `sniffType` and
`getImageSize` both run up front; non-PNG/JPEG sniffs are rejected; the size check fires
only when dimensions parsed (`if (size && …)`) — unreadable dimensions fall through to
publishing. The unused `selfFetch` parameter records that the self-fetch report never
affects control flow. -/
def detectImageMCP (hasKey : Bool) (file : Option FileUp) (dr : String) (_selfFetch : JVal)
    (w : WOutcome) : HRes :=
  match file with
  | none =>
    { status := 200, ai_score := halfScore, label := .str "Error: no image uploaded",
      exit := .noFile, published := none, detectCalled := false,
      rawError := some "No image uploaded", rawSize := none }
  | some f =>
    if hasKey then
      let realType := sniffType f.buffer
      match getImageSize f.buffer with
      | .thrown =>
        { status := 200, ai_score := halfScore, label := .str "Error contacting Winston",
          exit := .catchErr, published := none, detectCalled := false,
          rawError := none, rawSize := none }
      | .value size =>
        if realType = some Fmt.jpeg ∨ realType = some Fmt.png then
          match size with
          | some d =>
            if d.width < 256 ∨ d.height < 256 then
              { status := 200, ai_score := halfScore,
                label := .str ("Error: image too small (" ++ toString d.width ++ "x"
                  ++ toString d.height ++ "). Winston requires >=256x256."),
                exit := .tooSmall, published := none, detectCalled := false,
                rawError := some "IMAGE_TOO_SMALL", rawSize := some (d.width, d.height) }
            else mcpPublish f realType dr w
          | none => mcpPublish f realType dr w
        else
          { status := 200, ai_score := halfScore,
            label := .str "Error: uploaded file is not a PNG/JPEG image",
            exit := .notPngJpeg, published := none, detectCalled := false,
            rawError := some "NOT_PNG_JPEG", rawSize := none }
    else
      { status := 200, ai_score := halfScore, label := .str "Error: WINSTON_API_KEY missing",
        exit := .noKey, published := none, detectCalled := false,
        rawError := some "WINSTON_API_KEY not set in environment", rawSize := none }

/-- Route `POST /detect-image` of part_000 first variant (lines 55-99), the REST transport:
no sniffing, no dimension check — the bytes are written under `<random hex>.jpg` and sent
to Winston unconditionally. Failure paths use statuses 400 / 502 / 500. -/
def detectImageRest (file : Option FileUp) (rand : String) (f : FOutcome) : HRes :=
  match file with
  | none =>
    { status := 400, ai_score := halfScore, label := .str "No image uploaded",
      exit := .noFile, published := none, detectCalled := false,
      rawError := none, rawSize := none }
  | some _ =>
    let filename := rand ++ ".jpg"
    match f with
    | .throws =>
      { status := 500, ai_score := halfScore, label := .str "Server error",
        exit := .catchErr, published := some filename, detectCalled := true,
        rawError := none, rawSize := none }
    | .reply ok status data =>
      if ok then
        let aiScore := match optGet data "ai_probability" with
          | .num n => JVal.num n
          | _ => halfScore
        { status := 200, ai_score := aiScore,
          label := .str (if jsGeHalf aiScore then "AI" else "Human"),
          exit := .success, published := some filename, detectCalled := true,
          rawError := none, rawSize := none }
      else
        { status := 502, ai_score := halfScore,
          label := .str ("Winston REST error: " ++ toString status),
          exit := .badStatus, published := some filename, detectCalled := true,
          rawError := none, rawSize := none }

/-- Route `POST /detect-image` of part_001 (lines 27-58): the whole response body as a `JVal`,
paired with the HTTP status. The 400 and 500 bodies carry no `ai_score` field at all. -/
def detectImageP1 (file : Option (List Nat)) (w : WOutcome) : Nat × JVal :=
  match file with
  | none => (400, .obj [("error", .str "No image uploaded")])
  | some _ =>
    match w with
    | .throws => (500, .obj [("error", .str "Winston AI request failed")])
    | .responds data =>
      match data with
      | .null => (500, .obj [("error", .str "Winston AI request failed")])
      | .undefined => (500, .obj [("error", .str "Winston AI request failed")])
      | dv =>
        (200, .obj [
          ("ai_score", jsNullish (optGet dv "score") (jsNullish (optGet dv "ai_score") .null)),
          ("label", .str (if truthy (optGet dv "is_ai") then "AI" else "Human")),
          ("version", jsOr (optGet dv "model") (.str "winston-ai")),
          ("raw", dv)])

/-- A 25-byte PNG: valid signature, IHDR width 100 and height 100 at offsets 16/20. -/
def pngBuf100 : List Nat :=
  [0x89, 0x50, 0x4e, 0x47, 0, 0, 0, 0, 0, 0, 0, 0, 0, 0, 0, 0,
   0, 0, 0, 100, 0, 0, 0, 100, 0]

/-- A 25-byte PNG with width 256 and height 256. -/
def pngBuf256 : List Nat :=
  [0x89, 0x50, 0x4e, 0x47, 0, 0, 0, 0, 0, 0, 0, 0, 0, 0, 0, 0,
   0, 0, 1, 0, 0, 0, 1, 0, 0]

/-- A 16-byte buffer carrying only the PNG signature: sniffed as PNG, dimensions unreadable. -/
def pngBuf16 : List Nat := [0x89, 0x50, 0x4e, 0x47, 0, 0, 0, 0, 0, 0, 0, 0, 0, 0, 0, 0]

/-- A 12-byte buffer carrying only the PNG signature. -/
def pngBuf12 : List Nat := [0x89, 0x50, 0x4e, 0x47, 0, 0, 0, 0, 0, 0, 0, 0]

/-- Exactly the 12 signature bytes of a WEBP file ("RIFF" + size + "WEBP"). -/
def webpBuf12 : List Nat := [0x52, 0x49, 0x46, 0x46, 0, 0, 0, 0, 0x57, 0x45, 0x42, 0x50]

/-- An 11-byte baseline JPEG: SOI, SOF0 segment declaring height 256 and width 256. -/
def jpegBuf256 : List Nat :=
  [0xff, 0xd8, 0xff, 0xc0, 0x00, 0x11, 0x08, 0x01, 0x00, 0x01, 0x00]

/-- A 12-byte buffer starting with the JPEG signature. -/
def jpegBuf12 : List Nat := [0xff, 0xd8, 0, 0, 0, 0, 0, 0, 0, 0, 0, 0]

/-- A JPEG stream truncated inside a marker header: SOI, two stray bytes, then a lone FF
at the end — `readUInt16BE(6)` runs past the buffer. -/
def jpegTrunc : List Nat := [0xff, 0xd8, 0x00, 0x00, 0xff]

/-- A JPEG whose only segment declares a length running far past the buffer end. -/
def jpegOverrun : List Nat := [0xff, 0xd8, 0xff, 0xe0, 0x00, 0xff, 0, 0]

/-- A JPEG with well-formed segment lengths but no SOF marker before the buffer ends. -/
def jpegNoSof : List Nat := [0xff, 0xd8, 0x00, 0x00, 0x00]

/-- ASCII bytes of "hello": matches no signature. -/
def textBuf : List Nat := [104, 101, 108, 108, 111]

/-- An upstream RPC body whose payload carries no numeric score field at all. -/
def dataNoScore : JVal := .obj [("result", .obj [("output", .obj [("label", .str "x")])])]

/-- Claim C1: the spec says ai_score is always a finite number in [0,1], with 0.5 when no
numeric signal resolves. The code violates this: server.js second variant answers a
payload without a numeric score with `ai_score: false` (the `&&` yields `false`, which
`??` keeps, so the `=== null` fallback never fires), and the part_000 REST variant
forwards `ai_probability: 87` unscaled. -/
theorem c1_ai_score_escapes_range :
    (detectImageV2 true (some ⟨pngBuf256, none⟩) "d" (.responds dataNoScore)).ai_score
      = JVal.bool false ∧
    (detectImageRest (some ⟨textBuf, none⟩) "r"
        (.reply true 200 (.obj [("ai_probability", .num (.fin 87))]))).ai_score
      = JVal.num (.fin 87) := by
  exact ⟨rfl, rfl⟩

/-- Claim C4: the spec says malformed JPEG streams yield null and never crash. The two
malformed shapes the claim names (declared segment length past the buffer end; no SOF
marker) do yield null, but a stream truncated inside a marker header makes
`buffer.readUInt16BE` throw a RangeError: `getImageSize` crashes instead of returning
null on `FF D8 00 00 FF`. -/
theorem c4_truncated_jpeg_throws :
    getImageSize jpegTrunc = JsRes.thrown ∧
    getImageSize jpegOverrun = JsRes.value none ∧
    getImageSize jpegNoSof = JsRes.value none ∧
    getImageSize jpegBuf256 = JsRes.value (some ⟨256, 256, Fmt.jpeg⟩) := by
  decide

/-- Counterexample to claim C2: the part_000 REST variant answers a missing upload with
HTTP status 400, not 200, and part_001 does the same with a body that has no ai_score
field. -/
theorem c2_counterexample_rest_400 :
    (detectImageRest none "r" (.reply true 200 .null)).status = 400 ∧
    (detectImageP1 none .throws).1 = 400 ∧
    (lookupField (detectImageP1 none .throws).2 "ai_score").isNone = true := by
  decide

/-- Counterexample to claim C3: a 12-byte sequence that matches the WEBP signature is
classified `unknown` by `sniffType` (its WEBP arm demands strictly more than 12 bytes),
and a 12-byte sequence matching the PNG signature is classified `unknown` (null) by
`detectImageType` (which rejects everything under 16 bytes). -/
theorem c3_counterexample_twelve_bytes :
    sniffType webpBuf12 = none ∧ detectImageType pngBuf12 = none := by
  decide

/-- Counterexample to claim C5: the normalization chain of server.js first variant does
not discard negative values (−5 is used as the score verbatim) and does not accept
numeric strings ("87%" is skipped and the 0.5 fallback fires instead of 0.87). -/
theorem c5_counterexample_negative_and_string :
    aiScoreV1 (.obj [("ai_score", .num (.fin (-5)))]) = -5 ∧
    aiScoreV1 (.obj [("ai_score", .str "87%")]) = 1 / 2 := by
  constructor
  · simp [aiScoreV1, pickNumber, optGet, getField]
    norm_num
  · rfl

/-- Counterexample to claim C6: `human_probability` is not among the aliases the
normalizer probes, so a payload carrying only `human_probability: 0.2` yields the 0.5
fallback, not 1 − 0.2 = 0.8. -/
theorem c6_counterexample_human_probability :
    aiScoreV1 (.obj [("human_probability", .num (.fin (1 / 5)))]) = 1 / 2 ∧
    ¬ ((1 : ℚ) / 2 = 4 / 5) := by
  exact ⟨rfl, by norm_num⟩

/-- Counterexample to claim C8: in the part_000 MCP variant, a PNG-sniffed upload whose
dimensions cannot be parsed is not rejected with CANNOT_READ_DIMENSIONS — the `if (size
&& …)` guard skips the size check and the bytes are published and sent to Winston. -/
theorem c8_counterexample_mcp_publishes :
    sniffType pngBuf12 = some Fmt.png ∧
    getImageSize pngBuf12 = JsRes.value none ∧
    (detectImageMCP true (some ⟨pngBuf12, none⟩) "d" .null .throws).published = some "d.jpg" ∧
    (detectImageMCP true (some ⟨pngBuf12, none⟩) "d" .null .throws).detectCalled = true := by
  decide

/-- Counterexample to claim C9: the part_000 REST variant runs no validation at all —
bytes matching no image signature are written to the public store and sent to the
external detector. -/
theorem c9_counterexample_rest_unvalidated :
    sniffType textBuf = none ∧ detectImageType textBuf = none ∧
    (detectImageRest (some ⟨textBuf, none⟩) "r" (.reply true 200 .null)).published
      = some "r.jpg" ∧
    (detectImageRest (some ⟨textBuf, none⟩) "r" (.reply true 200 .null)).detectCalled
      = true := by
  decide

/-- Counterexample to claim C10: server.js first variant derives the stored extension from
the caller-declared filename — a JPEG upload named "x.png" is stored as ".png". -/
theorem c10_counterexample_caller_extension :
    getImageSize jpegBuf256 = JsRes.value (some ⟨256, 256, Fmt.jpeg⟩) ∧
    (detectImageV1 true (some ⟨jpegBuf256, some "x.png"⟩) "d" .throws).published
      = some "d.png" := by
  decide

/-- Lemma: every return site of `v2Publish` answers 200, has already written the file under the
sniffed-format extension, has called Winston, and every non-success exit carries 0.5. -/
theorem v2Publish_spec (rt : Fmt) (dr : String) (w : WOutcome) :
    (v2Publish rt dr w).status = 200 ∧
    (v2Publish rt dr w).published = some (dr ++ (if rt = Fmt.png then ".png" else ".jpg")) ∧
    (v2Publish rt dr w).detectCalled = true ∧
    ((v2Publish rt dr w).exit ≠ .success → (v2Publish rt dr w).ai_score = halfScore) := by
  unfold v2Publish
  rcases w with _ | data
  · exact ⟨rfl, rfl, rfl, fun _ => rfl⟩
  · dsimp only
    rcases h : maybeTextErrorV2 data with _ | t
    · simp [h]
    · rcases ht : truthy t
      · rcases data <;> simp [h, ht]
      · simp [h, ht]

/-- Lemma: every return site of `v1Publish` answers 200, has written the file and called Winston;
every non-success exit carries 0.5. -/
theorem v1Publish_spec (nm : Option String) (dr : String) (w : WOutcome) :
    (v1Publish nm dr w).status = 200 ∧
    (v1Publish nm dr w).published.isSome = true ∧
    (v1Publish nm dr w).detectCalled = true ∧
    ((v1Publish nm dr w).exit ≠ .success → (v1Publish nm dr w).ai_score = halfScore) := by
  unfold v1Publish
  rcases w with _ | data
  · exact ⟨rfl, rfl, rfl, fun _ => rfl⟩
  · dsimp only
    rcases ht : truthy (optGet data "error") <;> simp [ht]

/-- Lemma: every return site of `mcpPublish` answers 200, has written the file and called
Winston; every non-success exit carries 0.5. -/
theorem mcpPublish_spec (f : FileUp) (rt : Option Fmt) (dr : String) (w : WOutcome) :
    (mcpPublish f rt dr w).status = 200 ∧
    (mcpPublish f rt dr w).published.isSome = true ∧
    (mcpPublish f rt dr w).detectCalled = true ∧
    ((mcpPublish f rt dr w).exit ≠ .success → (mcpPublish f rt dr w).ai_score = halfScore) := by
  unfold mcpPublish
  rcases w with _ | data
  · exact ⟨rfl, rfl, rfl, fun _ => rfl⟩
  · dsimp only
    rcases he : truthy data && truthy (optGet data "error")
    · rcases hw : winstonTextErrorMCP data with _ | t <;> simp [he, hw]
    · simp [he]

/-- server.js second variant: every response has status 200, and every response produced
by a non-success exit carries the 0.5 envelope. -/
theorem v2_envelope (k : Bool) (file : Option FileUp) (dr : String) (w : WOutcome) :
    (detectImageV2 k file dr w).status = 200 ∧
    ((detectImageV2 k file dr w).exit ≠ .success →
      (detectImageV2 k file dr w).ai_score = halfScore) := by
  unfold detectImageV2
  rcases file with _ | f
  · exact ⟨rfl, fun _ => rfl⟩
  · rcases k
    · exact ⟨rfl, fun _ => rfl⟩
    · dsimp only
      rcases ht : detectImageType f.buffer with _ | rt
      · simp [ht]
      · rcases rt
        case png | jpeg =>
          simp only [ht]
          rcases hg : getImageSizeV2 f.buffer with _ | sz
          · simp [hg]
          · rcases sz with _ | d
            · simp [hg]
            · simp only [hg]
              by_cases hs : d.width < 256 ∨ d.height < 256
              · simp [hs]
              · simp only [hs, if_false, ite_false]
                exact ⟨(v2Publish_spec _ _ _).1, (v2Publish_spec _ _ _).2.2.2⟩
        case webp => simp [ht]

/-- server.js first variant: every response has status 200, and every response produced
by a non-success exit carries the 0.5 envelope. -/
theorem v1_envelope (k : Bool) (file : Option FileUp) (dr : String) (w : WOutcome) :
    (detectImageV1 k file dr w).status = 200 ∧
    ((detectImageV1 k file dr w).exit ≠ .success →
      (detectImageV1 k file dr w).ai_score = halfScore) := by
  unfold detectImageV1
  rcases file with _ | f
  · exact ⟨rfl, fun _ => rfl⟩
  · rcases k
    · exact ⟨rfl, fun _ => rfl⟩
    · dsimp only
      rcases hg : getImageSize f.buffer with _ | sz
      · simp [hg]
      · rcases sz with _ | d
        · simp [hg]
        · simp only [hg]
          by_cases hs : d.width < 256 ∨ d.height < 256
          · simp [hs]
          · simp only [hs, if_false, ite_false]
            exact ⟨(v1Publish_spec _ _ _).1, (v1Publish_spec _ _ _).2.2.2⟩

/-- part_000 second (MCP) variant: every response has status 200, and every response
produced by a non-success exit carries the 0.5 envelope. -/
theorem mcp_envelope (k : Bool) (file : Option FileUp) (dr : String) (sf : JVal)
    (w : WOutcome) :
    (detectImageMCP k file dr sf w).status = 200 ∧
    ((detectImageMCP k file dr sf w).exit ≠ .success →
      (detectImageMCP k file dr sf w).ai_score = halfScore) := by
  unfold detectImageMCP
  rcases file with _ | f
  · exact ⟨rfl, fun _ => rfl⟩
  · rcases k
    · exact ⟨rfl, fun _ => rfl⟩
    · dsimp only
      rcases hg : getImageSize f.buffer with _ | sz
      · simp [hg]
      · simp only [hg]
        by_cases hT : sniffType f.buffer = some Fmt.jpeg ∨ sniffType f.buffer = some Fmt.png
        · simp only [hT, if_true, ite_true]
          rcases sz with _ | d
          · exact ⟨(mcpPublish_spec _ _ _ _).1, (mcpPublish_spec _ _ _ _).2.2.2⟩
          · by_cases hs : d.width < 256 ∨ d.height < 256
            · simp [hs]
            · simp only [hs, if_false, ite_false]
              exact ⟨(mcpPublish_spec _ _ _ _).1, (mcpPublish_spec _ _ _ _).2.2.2⟩
        · simp [hT]

/-- Claim C3 (amended): sequences shorter than 12 bytes, and sequences matching no
signature, yield unknown in both sniffers; `sniffType` returns png/jpeg for matching
sequences of 12 bytes or more but needs at least 13 bytes for WEBP; `detectImageType`
yields unknown for everything under 16 bytes and returns the matched format from 16
bytes on. -/
theorem c3_sniffer_behavior : ∀ b : List Nat,
    (b.length < 12 → sniffType b = none ∧ detectImageType b = none) ∧
    (b.length < 16 → detectImageType b = none) ∧
    (12 ≤ b.length → pngSig b → sniffType b = some Fmt.png) ∧
    (12 ≤ b.length → jpegSig b → sniffType b = some Fmt.jpeg) ∧
    (13 ≤ b.length → webpSig b → sniffType b = some Fmt.webp) ∧
    (16 ≤ b.length → pngSig b → detectImageType b = some Fmt.png) ∧
    (16 ≤ b.length → jpegSig b → detectImageType b = some Fmt.jpeg) ∧
    (16 ≤ b.length → webpSig b → detectImageType b = some Fmt.webp) ∧
    (¬ pngSig b → ¬ jpegSig b → ¬ webpSig b →
      sniffType b = none ∧ detectImageType b = none) := by
  intro b
  refine ⟨?_, ?_, ?_, ?_, ?_, ?_, ?_, ?_, ?_⟩
  · intro h
    constructor
    · unfold sniffType; rw [if_pos h]
    · unfold detectImageType; rw [if_pos (by omega)]
  · intro h
    unfold detectImageType; rw [if_pos h]
  · intro hl hsig
    unfold sniffType
    rw [if_neg (by omega), if_pos ⟨by omega, hsig⟩]
  · intro hl hsig
    obtain ⟨j1, j2⟩ := hsig
    unfold sniffType
    rw [if_neg (by omega), if_neg (by rintro ⟨-, hc, -⟩; omega),
      if_pos ⟨by omega, j1, j2⟩]
  · intro hl hsig
    obtain ⟨w1, w2, w3, w4, w5, w6, w7, w8⟩ := hsig
    unfold sniffType
    rw [if_neg (by omega), if_neg (by rintro ⟨-, hc, -⟩; omega),
      if_neg (by rintro ⟨-, hc, -⟩; omega),
      if_pos ⟨by omega, w1, w2, w3, w4, w5, w6, w7, w8⟩]
  · intro hl hsig
    unfold detectImageType
    rw [if_neg (by omega), if_pos hsig]
  · intro hl hsig
    obtain ⟨j1, j2⟩ := hsig
    unfold detectImageType
    rw [if_neg (by omega), if_neg (by rintro ⟨hc, -⟩; omega), if_pos ⟨j1, j2⟩]
  · intro hl hsig
    obtain ⟨w1, w2, w3, w4, w5, w6, w7, w8⟩ := hsig
    unfold detectImageType
    rw [if_neg (by omega), if_neg (by rintro ⟨hc, -⟩; omega),
      if_neg (by rintro ⟨hc, -⟩; omega), if_pos ⟨w1, w2, w3, w4, w5, w6, w7, w8⟩]
  · intro hp hj hw
    constructor
    · unfold sniffType
      split_ifs with h1 h2 h3 h4
      · rfl
      · exact absurd h2.2 hp
      · exact absurd h3.2 hj
      · exact absurd h4.2 hw
      · rfl
    · unfold detectImageType
      split_ifs with h1
      · rfl
      · rfl

/-- Witness for C3: the thresholds evaluated at concrete buffers. -/
theorem c3_sniffer_behavior_witness :
    sniffType pngBuf12 = some Fmt.png ∧ sniffType jpegBuf12 = some Fmt.jpeg ∧
    detectImageType pngBuf16 = some Fmt.png ∧ sniffType textBuf = none :=
  ⟨(c3_sniffer_behavior pngBuf12).2.2.1 (by decide) (by decide),
   (c3_sniffer_behavior jpegBuf12).2.2.2.1 (by decide) (by decide),
   (c3_sniffer_behavior pngBuf16).2.2.2.2.2.1 (by decide) (by decide),
   ((c3_sniffer_behavior textBuf).1 (by decide)).1⟩

/-- Claim C5 (amended): the first-variant normalization accepts only values that are JS
numbers and finite (numeric strings are skipped, no "%" stripping exists); every finite
value greater than 1 — with no upper bound — is divided by 100; every finite value at
most 1, including negatives, passes through unchanged; NaN, ±Infinity and non-numbers
are skipped by `pickNumber`, so a payload offering only such values gets the 0.5
fallback. -/
theorem c5_normalization_behavior :
    (∀ q : ℚ, 1 < q → aiScoreV1 (.obj [("ai_score", .num (.fin q))]) = q / 100) ∧
    (∀ q : ℚ, q ≤ 1 → aiScoreV1 (.obj [("ai_score", .num (.fin q))]) = q) ∧
    (∀ (s : String) (q : ℚ),
      aiScoreV1 (.obj [("ai_score", .str s), ("ai_probability", .num (.fin q))])
        = if 1 < q then q / 100 else q) ∧
    aiScoreV1 (.obj [("ai_score", .num .nan)]) = 1 / 2 ∧
    aiScoreV1 (.obj [("ai_score", .num .inf)]) = 1 / 2 ∧
    aiScoreV1 (.obj [("ai_score", .bool true)]) = 1 / 2 := by
  refine ⟨?_, ?_, ?_, rfl, rfl, rfl⟩
  · intro q h
    simp [aiScoreV1, pickNumber, optGet, getField, h]
  · intro q h
    have hn : ¬ 1 < q := not_lt.mpr h
    simp [aiScoreV1, pickNumber, optGet, getField, hn]
  · intro s q
    simp [aiScoreV1, pickNumber, optGet, getField]

/-- Witness for C5: 87 is scaled to 0.87 and 0.3 passes through. -/
theorem c5_normalization_behavior_witness :
    aiScoreV1 (.obj [("ai_score", .num (.fin 87))]) = 87 / 100 ∧
    aiScoreV1 (.obj [("ai_score", .num (.fin (3 / 10)))]) = 3 / 10 :=
  ⟨c5_normalization_behavior.1 87 (by norm_num),
   c5_normalization_behavior.2.1 (3 / 10) (by norm_num)⟩

/-- Claim C6 (amended): `human_probability` is never consulted — a payload carrying only
`human_probability` (with any numeric value) yields the 0.5 fallback, not
1 − human_probability. -/
theorem c6_human_probability_unused :
    ∀ q : ℚ, aiScoreV1 (.obj [("human_probability", .num (.fin q))]) = 1 / 2 :=
  fun _ => rfl

/-- Helper: a value that is not a JS number makes `typeof v === "number" && v` yield
boolean false. -/
theorem numAnd_of_isNumV_false (v : JVal) (h : isNumV v = false) : numAnd v = .bool false := by
  rcases v <;> first | rfl | simp [isNumV] at h

/-- Claim C2 (amended): all three MCP-transport variants (both server.js variants and the
part_000 MCP variant) always answer HTTP 200. In the server.js first variant and the
part_000 MCP variant every caller-facing failure path of the claim resolves to the
envelope with ai_score = 0.5: each non-success return site carries 0.5, and an
unparseable payload — none of the probed alias fields holding a JS number — also
normalizes to 0.5 on the success exit. In the server.js second variant the non-success
return sites carry 0.5, but the unparseable-payload path instead yields ai_score = false
(the claim C1 bug). The part_000 REST variant answers 400 (no file), 502 (upstream
error) and 500 (internal fault); part_001 answers 400 (no file) and 500 (upstream
failure), both with bodies carrying no ai_score field at all. -/
theorem c2_envelope_policy :
    (∀ (k : Bool) (file : Option FileUp) (dr : String) (w : WOutcome),
      (detectImageV1 k file dr w).status = 200 ∧
      ((detectImageV1 k file dr w).exit ≠ .success →
        (detectImageV1 k file dr w).ai_score = halfScore)) ∧
    (∀ (k : Bool) (file : Option FileUp) (dr : String) (w : WOutcome),
      (detectImageV2 k file dr w).status = 200 ∧
      ((detectImageV2 k file dr w).exit ≠ .success →
        (detectImageV2 k file dr w).ai_score = halfScore)) ∧
    (∀ (k : Bool) (file : Option FileUp) (dr : String) (sf : JVal) (w : WOutcome),
      (detectImageMCP k file dr sf w).status = 200 ∧
      ((detectImageMCP k file dr sf w).exit ≠ .success →
        (detectImageMCP k file dr sf w).ai_score = halfScore)) ∧
    (∀ (nm : Option String) (dr : String) (data : JVal),
      truthy (optGet data "error") = false →
      pickNumber [optGet (v1PayloadOf data) "ai_score",
        optGet (v1PayloadOf data) "ai_probability", optGet (v1PayloadOf data) "score",
        optGet (v1PayloadOf data) "probability"] = none →
      (v1Publish nm dr (.responds data)).ai_score = halfScore ∧
      (v1Publish nm dr (.responds data)).status = 200) ∧
    (∀ (f : FileUp) (rt : Option Fmt) (dr : String) (data : JVal),
      (truthy data && truthy (optGet data "error")) = false →
      winstonTextErrorMCP data = none →
      isNumV (optGet (mcpPayloadOf data) "ai_score") = false →
      isNumV (optGet (mcpPayloadOf data) "ai_probability") = false →
      isNumV (optGet (mcpPayloadOf data) "score") = false →
      (mcpPublish f rt dr (.responds data)).ai_score = halfScore ∧
      (mcpPublish f rt dr (.responds data)).status = 200) ∧
    (∀ payload : JVal,
      isNumV (optGet payload "ai_score") = false →
      isNumV (optGet payload "ai_probability") = false →
      isNumV (optGet payload "score") = false →
      aiScoreV2 payload = .bool false) ∧
    (∀ (r : String) (f : FOutcome), (detectImageRest none r f).status = 400) ∧
    (∀ (fl : FileUp) (r : String), (detectImageRest (some fl) r .throws).status = 500) ∧
    (∀ (fl : FileUp) (r : String) (st : Nat) (d : JVal),
      (detectImageRest (some fl) r (.reply false st d)).status = 502) ∧
    (∀ (w : WOutcome), (detectImageP1 none w).1 = 400 ∧
      (lookupField (detectImageP1 none w).2 "ai_score").isNone = true) ∧
    (∀ (buf : List Nat), (detectImageP1 (some buf) .throws).1 = 500 ∧
      (lookupField (detectImageP1 (some buf) .throws).2 "ai_score").isNone = true) := by
  refine ⟨v1_envelope, v2_envelope, mcp_envelope, ?_, ?_, ?_, fun _ _ => rfl,
    fun _ _ => rfl, fun _ _ _ _ => rfl, fun _ => ⟨rfl, rfl⟩, fun _ => ⟨rfl, rfl⟩⟩
  · intro nm dr data herr hp
    have hs : aiScoreV1 (v1PayloadOf data) = 1 / 2 := by
      unfold aiScoreV1
      rw [hp]
    unfold v1Publish
    simp [herr, hs, halfScore]
  · intro f rt dr data herr hw h1 h2 h3
    have hs : aiScoreMCP (mcpPayloadOf data) = halfScore := by
      unfold aiScoreMCP
      simp [h1, h2, h3]
    unfold mcpPublish
    simp [herr, hw, hs]
  · intro payload h1 h2 h3
    simp only [aiScoreV2]
    rw [numAnd_of_isNumV_false _ h1, numAnd_of_isNumV_false _ h2,
      numAnd_of_isNumV_false _ h3]
    rfl

/-- Witness for C2: the missing-file and transport-failure paths of the server.js second
variant, and the unparseable-payload success path of the first and MCP variants,
evaluated concretely. -/
theorem c2_envelope_policy_witness :
    ((detectImageV2 true none "d" .throws).status = 200 ∧
      (detectImageV2 true none "d" .throws).ai_score = halfScore) ∧
    ((detectImageV2 true (some ⟨pngBuf256, none⟩) "d" .throws).status = 200 ∧
      (detectImageV2 true (some ⟨pngBuf256, none⟩) "d" .throws).ai_score = halfScore) ∧
    (v1Publish none "d" (.responds dataNoScore)).ai_score = halfScore ∧
    (mcpPublish ⟨pngBuf256, none⟩ (some Fmt.png) "d" (.responds dataNoScore)).ai_score
      = halfScore :=
  ⟨⟨(c2_envelope_policy.2.1 true none "d" .throws).1,
    (c2_envelope_policy.2.1 true none "d" .throws).2 (by decide)⟩,
   ⟨(c2_envelope_policy.2.1 true (some ⟨pngBuf256, none⟩) "d" .throws).1,
    (c2_envelope_policy.2.1 true (some ⟨pngBuf256, none⟩) "d" .throws).2 (by decide)⟩,
   (c2_envelope_policy.2.2.2.1 none "d" dataNoScore rfl rfl).1,
   (c2_envelope_policy.2.2.2.2.1 ⟨pngBuf256, none⟩ (some Fmt.png) "d" dataNoScore
      rfl rfl rfl rfl rfl).1⟩

/-- Claim C7: whenever the sniffed format has a dimension parser and the parsed width or
height is below 256, the gate rejects with IMAGE_TOO_SMALL, the rejection carries the
measured dimensions, the response still has ai_score 0.5 and status 200, and nothing is
published or sent to the detector. Proved for server.js second variant, server.js first
variant (whose `getImageSize` plays both sniffer and parser), and the part_000 MCP
variant. -/
theorem c7_image_too_small :
    (∀ (buf : List Nat) (nm : Option String) (dr : String) (w : WOutcome) (rt : Fmt)
        (d : ImageDim), detectImageType buf = some rt → rt ≠ Fmt.webp →
      getImageSizeV2 buf = .value (some d) → d.width < 256 ∨ d.height < 256 →
      (detectImageV2 true (some ⟨buf, nm⟩) dr w).exit = .tooSmall ∧
      (detectImageV2 true (some ⟨buf, nm⟩) dr w).rawError = some "IMAGE_TOO_SMALL" ∧
      (detectImageV2 true (some ⟨buf, nm⟩) dr w).rawSize = some (d.width, d.height) ∧
      (detectImageV2 true (some ⟨buf, nm⟩) dr w).ai_score = halfScore ∧
      (detectImageV2 true (some ⟨buf, nm⟩) dr w).status = 200 ∧
      (detectImageV2 true (some ⟨buf, nm⟩) dr w).published = none ∧
      (detectImageV2 true (some ⟨buf, nm⟩) dr w).detectCalled = false) ∧
    (∀ (buf : List Nat) (nm : Option String) (dr : String) (w : WOutcome) (d : ImageDim),
      getImageSize buf = .value (some d) → d.width < 256 ∨ d.height < 256 →
      (detectImageV1 true (some ⟨buf, nm⟩) dr w).exit = .tooSmall ∧
      (detectImageV1 true (some ⟨buf, nm⟩) dr w).rawError = some "IMAGE_TOO_SMALL" ∧
      (detectImageV1 true (some ⟨buf, nm⟩) dr w).rawSize = some (d.width, d.height) ∧
      (detectImageV1 true (some ⟨buf, nm⟩) dr w).ai_score = halfScore ∧
      (detectImageV1 true (some ⟨buf, nm⟩) dr w).status = 200 ∧
      (detectImageV1 true (some ⟨buf, nm⟩) dr w).published = none ∧
      (detectImageV1 true (some ⟨buf, nm⟩) dr w).detectCalled = false) ∧
    (∀ (buf : List Nat) (nm : Option String) (dr : String) (sf : JVal) (w : WOutcome)
        (rt : Fmt) (d : ImageDim), sniffType buf = some rt →
      rt = Fmt.jpeg ∨ rt = Fmt.png → getImageSize buf = .value (some d) →
      d.width < 256 ∨ d.height < 256 →
      (detectImageMCP true (some ⟨buf, nm⟩) dr sf w).exit = .tooSmall ∧
      (detectImageMCP true (some ⟨buf, nm⟩) dr sf w).rawError = some "IMAGE_TOO_SMALL" ∧
      (detectImageMCP true (some ⟨buf, nm⟩) dr sf w).rawSize = some (d.width, d.height) ∧
      (detectImageMCP true (some ⟨buf, nm⟩) dr sf w).ai_score = halfScore ∧
      (detectImageMCP true (some ⟨buf, nm⟩) dr sf w).status = 200 ∧
      (detectImageMCP true (some ⟨buf, nm⟩) dr sf w).published = none ∧
      (detectImageMCP true (some ⟨buf, nm⟩) dr sf w).detectCalled = false) := by
  refine ⟨?_, ?_, ?_⟩
  · intro buf nm dr w rt d ht hw hg hs
    rcases rt
    case webp => exact absurd rfl hw
    case png => simp [detectImageV2, ht, hg, hs]
    case jpeg => simp [detectImageV2, ht, hg, hs]
  · intro buf nm dr w d hg hs
    simp [detectImageV1, hg, hs]
  · intro buf nm dr sf w rt d ht hor hg hs
    rcases hor with h | h <;> subst h <;>
      simp [detectImageMCP, ht, hg, hs]

/-- Witness for C7: a 100x100 PNG is rejected by all three gates with the measured
dimensions and the 0.5 envelope. -/
theorem c7_image_too_small_witness :
    (detectImageV2 true (some ⟨pngBuf100, none⟩) "d" .throws).exit = .tooSmall ∧
    (detectImageV2 true (some ⟨pngBuf100, none⟩) "d" .throws).rawSize = some (100, 100) ∧
    (detectImageV1 true (some ⟨pngBuf100, none⟩) "d" .throws).exit = .tooSmall ∧
    (detectImageMCP true (some ⟨pngBuf100, none⟩) "d" .null .throws).exit = .tooSmall :=
  ⟨(c7_image_too_small.1 pngBuf100 none "d" .throws Fmt.png ⟨100, 100, Fmt.png⟩
      (by decide) (by decide) (by decide) (by decide)).1,
   (c7_image_too_small.1 pngBuf100 none "d" .throws Fmt.png ⟨100, 100, Fmt.png⟩
      (by decide) (by decide) (by decide) (by decide)).2.2.1,
   (c7_image_too_small.2.1 pngBuf100 none "d" .throws ⟨100, 100, Fmt.png⟩
      (by decide) (by decide)).1,
   (c7_image_too_small.2.2 pngBuf100 none "d" .null .throws Fmt.png ⟨100, 100, Fmt.png⟩
      (by decide) (by decide) (by decide) (by decide)).1⟩

/-- Claim C8 (amended): in the server.js second variant, a nominally supported sniffed
format (png or jpeg) whose dimensions cannot be parsed is rejected with
CANNOT_READ_DIMENSIONS, the 0.5 envelope is returned, and nothing is published or sent
to the detector; the part_000 MCP variant lacks this check and proceeds to publish and
detect (see the counterexample). -/
theorem c8_cannot_read_dimensions_v2 :
    ∀ (buf : List Nat) (nm : Option String) (dr : String) (w : WOutcome) (rt : Fmt),
      detectImageType buf = some rt → rt ≠ Fmt.webp → getImageSizeV2 buf = .value none →
      (detectImageV2 true (some ⟨buf, nm⟩) dr w).exit = .cannotRead ∧
      (detectImageV2 true (some ⟨buf, nm⟩) dr w).rawError = some "CANNOT_READ_DIMENSIONS" ∧
      (detectImageV2 true (some ⟨buf, nm⟩) dr w).ai_score = halfScore ∧
      (detectImageV2 true (some ⟨buf, nm⟩) dr w).status = 200 ∧
      (detectImageV2 true (some ⟨buf, nm⟩) dr w).published = none ∧
      (detectImageV2 true (some ⟨buf, nm⟩) dr w).detectCalled = false := by
  intro buf nm dr w rt ht hw hg
  rcases rt
  case webp => exact absurd rfl hw
  case png => simp [detectImageV2, ht, hg]
  case jpeg => simp [detectImageV2, ht, hg]

/-- Witness for C8: a 16-byte PNG-signature buffer sniffs as png but has no readable
dimensions; the second variant rejects it without publishing. -/
theorem c8_cannot_read_dimensions_v2_witness :
    (detectImageV2 true (some ⟨pngBuf16, none⟩) "d" .throws).exit = .cannotRead ∧
    (detectImageV2 true (some ⟨pngBuf16, none⟩) "d" .throws).published = none :=
  ⟨(c8_cannot_read_dimensions_v2 pngBuf16 none "d" .throws Fmt.png
      (by decide) (by decide) (by decide)).1,
   (c8_cannot_read_dimensions_v2 pngBuf16 none "d" .throws Fmt.png
      (by decide) (by decide) (by decide)).2.2.2.2.1⟩

/-- Claim C9 (amended): in server.js second variant the publish write and the detection
call happen only after the full gate accepted (known non-WEBP format, parseable
dimensions, both at least 256); in server.js first variant only after `getImageSize`
parsed dimensions of at least 256. The part_000 REST variant publishes and detects with
no validation at all (see the counterexample), and the MCP variant publishes uploads
whose dimensions cannot be read (see the counterexample of claim C8). -/
theorem c9_gate_before_publish :
    (∀ (k : Bool) (buf : List Nat) (nm : Option String) (dr : String) (w : WOutcome),
      ((detectImageV2 k (some ⟨buf, nm⟩) dr w).published ≠ none ∨
        (detectImageV2 k (some ⟨buf, nm⟩) dr w).detectCalled = true) →
      ∃ rt d, detectImageType buf = some rt ∧ rt ≠ Fmt.webp ∧
        getImageSizeV2 buf = .value (some d) ∧ 256 ≤ d.width ∧ 256 ≤ d.height) ∧
    (∀ (k : Bool) (buf : List Nat) (nm : Option String) (dr : String) (w : WOutcome),
      ((detectImageV1 k (some ⟨buf, nm⟩) dr w).published ≠ none ∨
        (detectImageV1 k (some ⟨buf, nm⟩) dr w).detectCalled = true) →
      ∃ d, getImageSize buf = .value (some d) ∧ 256 ≤ d.width ∧ 256 ≤ d.height) := by
  constructor
  · intro k buf nm dr w hyp
    rcases k
    · exfalso; revert hyp; simp [detectImageV2]
    · rcases ht : detectImageType buf with _ | rt
      · exfalso; revert hyp; simp [detectImageV2, ht]
      · rcases rt
        case webp => exfalso; revert hyp; simp [detectImageV2, ht]
        case png | jpeg =>
          rcases hg : getImageSizeV2 buf with _ | sz
          · exfalso; revert hyp; simp [detectImageV2, ht, hg]
          · rcases sz with _ | d
            · exfalso; revert hyp; simp [detectImageV2, ht, hg]
            · by_cases hs : d.width < 256 ∨ d.height < 256
              · exfalso; revert hyp; simp [detectImageV2, ht, hg, hs]
              · push_neg at hs
                refine ⟨_, d, rfl, ?_, rfl, hs.1, hs.2⟩
                decide
  · intro k buf nm dr w hyp
    rcases k
    · exfalso; revert hyp; simp [detectImageV1]
    · rcases hg : getImageSize buf with _ | sz
      · exfalso; revert hyp; simp [detectImageV1, hg]
      · rcases sz with _ | d
        · exfalso; revert hyp; simp [detectImageV1, hg]
        · by_cases hs : d.width < 256 ∨ d.height < 256
          · exfalso; revert hyp; simp [detectImageV1, hg, hs]
          · push_neg at hs
            exact ⟨d, rfl, hs.1, hs.2⟩

/-- Witness for C9: the second variant published for a 256x256 PNG, and indeed the gate
facts hold for that buffer. -/
theorem c9_gate_before_publish_witness :
    ∃ rt d, detectImageType pngBuf256 = some rt ∧ rt ≠ Fmt.webp ∧
      getImageSizeV2 pngBuf256 = .value (some d) ∧ 256 ≤ d.width ∧ 256 ≤ d.height :=
  c9_gate_before_publish.1 true pngBuf256 none "d" .throws (Or.inr (by decide))

/-- Claim C10 (amended): in server.js second variant the stored extension is determined
by the sniffed format alone — the handler ignores the caller-declared filename entirely
and stores ".png" exactly when the sniff said png, ".jpg" otherwise. In server.js first
variant and the part_000 MCP variant the caller extension wins when present (see the
counterexample), and the REST variant always stores ".jpg". -/
theorem c10_v2_sniffed_extension :
    (∀ (k : Bool) (buf : List Nat) (n1 n2 : Option String) (dr : String) (w : WOutcome),
      detectImageV2 k (some ⟨buf, n1⟩) dr w = detectImageV2 k (some ⟨buf, n2⟩) dr w) ∧
    (∀ (k : Bool) (buf : List Nat) (nm : Option String) (dr : String) (w : WOutcome)
        (fn : String),
      (detectImageV2 k (some ⟨buf, nm⟩) dr w).published = some fn →
      fn = dr ++ (if detectImageType buf = some Fmt.png then ".png" else ".jpg")) := by
  constructor
  · intro k buf n1 n2 dr w
    rfl
  · intro k buf nm dr w fn hfn
    rcases k
    · exfalso; revert hfn; simp [detectImageV2]
    · rcases ht : detectImageType buf with _ | rt
      · exfalso; revert hfn; simp [detectImageV2, ht]
      · rcases rt
        case webp => exfalso; revert hfn; simp [detectImageV2, ht]
        case png =>
          rcases hg : getImageSizeV2 buf with _ | sz
          · exfalso; revert hfn; simp [detectImageV2, ht, hg]
          · rcases sz with _ | d
            · exfalso; revert hfn; simp [detectImageV2, ht, hg]
            · by_cases hs : d.width < 256 ∨ d.height < 256
              · exfalso; revert hfn; simp [detectImageV2, ht, hg, hs]
              · have heq : detectImageV2 true (some ⟨buf, nm⟩) dr w
                    = v2Publish Fmt.png dr w := by
                  simp [detectImageV2, ht, hg, hs]
                rw [heq, (v2Publish_spec Fmt.png dr w).2.1] at hfn
                simp at hfn ⊢
                first
                  | exact hfn
                  | exact hfn.symm
        case jpeg =>
          rcases hg : getImageSizeV2 buf with _ | sz
          · exfalso; revert hfn; simp [detectImageV2, ht, hg]
          · rcases sz with _ | d
            · exfalso; revert hfn; simp [detectImageV2, ht, hg]
            · by_cases hs : d.width < 256 ∨ d.height < 256
              · exfalso; revert hfn; simp [detectImageV2, ht, hg, hs]
              · have heq : detectImageV2 true (some ⟨buf, nm⟩) dr w
                    = v2Publish Fmt.jpeg dr w := by
                  simp [detectImageV2, ht, hg, hs]
                rw [heq, (v2Publish_spec Fmt.jpeg dr w).2.1] at hfn
                simp at hfn ⊢
                first
                  | exact hfn
                  | exact hfn.symm

/-- Witness for C10: a 256x256 PNG uploaded under the misleading name "x.jpg" is stored
as ".png" by the second variant. -/
theorem c10_v2_sniffed_extension_witness :
    "d.png" = "d" ++ (if detectImageType pngBuf256 = some Fmt.png then ".png" else ".jpg") :=
  c10_v2_sniffed_extension.2 true pngBuf256 (some "x.jpg") "d" .throws "d.png" (by decide)
